import Mathlib

/-!
Verification development for the ida-pro-mcp repository.

The definitions below are a shallow embedding of the Python source:
  * `src/ida_pro_mcp/server.py` — the `dispatch_proxy` router and the
    startup checks of `main`;
  * `src/ida_pro_mcp/ida_mcp/api_pro.py` — the session lifecycle tool
    wrappers `open_database`, `close_database`, `switch_database`;
  * `src/ida_pro_mcp/ida_mcp/api_yara.py` — `generate_yara_rule`.

External effects (the session-manager queries, the local registry
dispatch, the HTTP round trip to the remote peer, the IDA byte/flag
oracles) are passed in explicitly as data, so every Python control path
becomes a pure, executable Lean function.
-/

namespace IdaProMcp

/-- A JSON-ish value, used for tool results (Python dicts) and opaque
JSON-RPC response payloads. -/
inductive PyVal where
  | str (s : String)
  | num (n : Int)
  | bool (b : Bool)
  | none
  | list (xs : List PyVal)
  | dict (fields : List (String × PyVal))
  deriving Repr

/-- A JSON-RPC request id: a number or a string. -/
inductive JsonId where
  | num (n : Int)
  | str (s : String)
  deriving Repr, DecidableEq

/-- The `params` member of a request: either a JSON object (a dict in
Python, here an association list) or some other JSON value.
`dispatch_proxy` only ever inspects `params.get("name")` after an
`isinstance(params, dict)` check. -/
inductive Params where
  | dict (fields : List (String × String))
  | other
  deriving Repr, DecidableEq

/-- The decoded JSON-RPC request envelope, as far as `dispatch_proxy`
inspects it: `method`, the optional `params`, and the optional `id`
(absent or JSON `null` both surface as Python `None`, hence `Option`). -/
structure JsonRpcRequest where
  method : String
  params : Option Params
  id : Option JsonId
  deriving Repr, DecidableEq

/-- The module-level configuration of `server.py` consulted by
`dispatch_proxy`: the two mode flags, whether `idapro` imported
(`HAS_IDALIB`), whether the local MCP server module loaded
(`LOCAL_MCP_SERVER is not None`), and the platform test used to pick the
keyboard-shortcut text of the error message. -/
structure Env where
  forceRpc : Bool
  forceHeadless : Bool
  hasIdalib : Bool
  localServer : Bool
  isDarwin : Bool
  deriving Repr, DecidableEq

/-- The behaviour of the external calls `dispatch_proxy` makes, passed in
as data: the session-manager query
`get_session_manager().get_current_session() is not None` (which can
raise, e.g. on import failure), the local registry dispatch
`LOCAL_MCP_SERVER.registry.dispatch(request)` (which can raise), the
original registry dispatch `dispatch_original(request)`, and the HTTP
round trip to the remote peer (whose failure carries the exception text
`str(e)` and the traceback text `full_info`). -/
structure Backends where
  sessionQuery : Except String Bool
  localDispatch : Except String PyVal
  originalDispatch : PyVal
  remoteCall : Except String PyVal
  fullInfo : String
  deriving Repr

/-- What `dispatch_proxy` returns (when it does not raise): which backend
produced the response, or the synthesized error envelope, or no response
at all (Python `None`, for notifications). -/
inductive Routed where
  | viaOriginal (r : PyVal)
  | viaLocalEngine (r : PyVal)
  | viaRemote (r : PyVal)
  | errorResponse (code : Int) (message : String) (data : String) (id : JsonId)
  | noResponse
  deriving Repr

/-- `method in ("tools/list", "resources/list", "resources/templates/list",
"prompts/list")` from `dispatch_proxy`. -/
def is_discovery (method : String) : Bool :=
  method == "tools/list" || method == "resources/list" ||
  method == "resources/templates/list" || method == "prompts/list"

/-- The `is_open_command` computation of `dispatch_proxy`:
`method == "tools/call"` and `params` is a dict whose `"name"` entry is
`"open_database"`. -/
def is_open_command (method : String) (params : Option Params) : Bool :=
  if method == "tools/call" then
    match params with
    | some (.dict fields) => fields.lookup "name" == some "open_database"
    | _ => false
  else false

/-- Outcome of the local-IDA section of `dispatch_proxy` (the
`if not FORCE_RPC and HAS_IDALIB and LOCAL_MCP_SERVER:` block with its
`try/except`): the request was handled locally, or a local exception was
re-raised because `FORCE_HEADLESS` is set, or control falls through to
the HTTP forwarding block. -/
inductive LocalPhase where
  | handled (r : PyVal)
  | fatal (e : String)
  | fallThrough
  deriving Repr

/-- The local-IDA section of `dispatch_proxy`. The session-manager query
and the registry dispatch both live inside the same `try`, whose
`except` re-raises exactly when `FORCE_HEADLESS` is set. -/
def localPhase (env : Env) (req : JsonRpcRequest) (bk : Backends) : LocalPhase :=
  if !env.forceRpc && env.hasIdalib && env.localServer then
    match bk.sessionQuery with
    | .error e => if env.forceHeadless then .fatal e else .fallThrough
    | .ok hasActiveSession =>
      if env.forceHeadless || is_discovery req.method ||
          is_open_command req.method req.params || hasActiveSession then
        match bk.localDispatch with
        | .ok r => .handled r
        | .error e => if env.forceHeadless then .fatal e else .fallThrough
      else .fallThrough
  else .fallThrough

/-- The keyboard-shortcut text chosen by the platform check in the
error-message construction of `dispatch_proxy`. -/
def shortcutFor (isDarwin : Bool) : String :=
  if isDarwin then "Ctrl+Option+M" else "Ctrl+Alt+M"

/-- The human-readable message of the synthesized error response: the
GUI-plugin hint, replaced by the headless hint when `HAS_IDALIB` is set
and `FORCE_RPC` is not. Both interpolate the shortcut and append the
traceback text. -/
def connectionErrorMsg (env : Env) (fullInfo : String) : String :=
  let shortcut := shortcutFor env.isDarwin
  if env.hasIdalib && !env.forceRpc then
    "Failed to connect to IDA Pro (GUI) and no headless session is active. Use open_database() to open a binary headlessly, or start the IDA GUI and the MCP plugin (" ++ shortcut ++ ").\n" ++ fullInfo
  else
    "Failed to connect to IDA Pro! Did you run Edit -> Plugins -> MCP (" ++ shortcut ++ ") to start the server?\n" ++ fullInfo

/-- The HTTP forwarding block of `dispatch_proxy`: on success return the
decoded peer response; on failure return `None` for a notification
(`id` absent), else the `-32000` error envelope carrying the message,
the exception text as `data`, and the request id. -/
def handleRemote (env : Env) (req : JsonRpcRequest) (bk : Backends) : Routed :=
  match bk.remoteCall with
  | .ok r => .viaRemote r
  | .error e =>
    match req.id with
    | Option.none => .noResponse
    | some i => .errorResponse (-32000) (connectionErrorMsg env bk.fullInfo) e i

/-- `dispatch_proxy` from `server.py`: handshake and notification methods
go to the original registry dispatch; otherwise the local-IDA section may
handle the request or raise; anything left is forwarded to the remote
peer. `Except.error` models an uncaught Python exception. -/
def dispatch_proxy (env : Env) (req : JsonRpcRequest) (bk : Backends) :
    Except String Routed :=
  if req.method == "initialize" then
    .ok (.viaOriginal bk.originalDispatch)
  else if req.method.startsWith "notifications/" then
    .ok (.viaOriginal bk.originalDispatch)
  else
    match localPhase env req bk with
    | .handled r => .ok (.viaLocalEngine r)
    | .fatal e => .error e
    | .fallThrough => .ok (handleRemote env req bk)

/-! ### Startup checks of `main` (`server.py`) -/

/-- The result of `urlparse(args.ida_rpc)` as far as `main` inspects it:
`hostname` and `port`, either of which may be `None`. -/
structure RpcUrl where
  hostname : Option String
  port : Option Nat
  deriving Repr, DecidableEq

/-- The parsed command-line arguments of `main` that drive its startup
checks. -/
structure Args where
  install : Bool
  uninstall : Bool
  headless : Bool
  rpcOnly : Bool
  config : Bool
  idaRpc : Option RpcUrl
  deriving Repr, DecidableEq

/-- How the startup sequence of `main` concludes before any request is
served: an uncaught exception, `sys.exit` with an error message, one of
the early-`return` administrative paths, or proceeding to serve. -/
inductive StartupOutcome where
  | raised (msg : String)
  | exitError (code : Nat) (msg : String)
  | earlyReturn (msg : String)
  | runInstall
  | runUninstall
  | printConfig
  | serve
  deriving Repr, DecidableEq

/-- The startup checks of `main` after argument parsing, in source order:
the `--ida-rpc` URL validation (raises on a missing hostname or port),
the contradictory-flags check (`sys.exit(1)`), the headless-without-
idalib check (`sys.exit(1)`), the install/uninstall early returns, the
`--config` early return, and finally proceeding to serve. -/
def mainStartup (hasIdalib : Bool) (a : Args) : StartupOutcome :=
  let afterRpc : StartupOutcome :=
    if a.headless && a.rpcOnly then
      .exitError 1 "Error: Cannot specify both --headless and --rpc-only"
    else if a.headless && !hasIdalib then
      .exitError 1 "Error: Headless mode requires idalib but it was not found."
    else if a.install && a.uninstall then
      .earlyReturn "Cannot install and uninstall at the same time"
    else if a.install then .runInstall
    else if a.uninstall then .runUninstall
    else if a.config then .printConfig
    else .serve
  match a.idaRpc with
  | some u =>
    if u.hostname = Option.none || u.port = Option.none then
      .raised "Invalid IDA RPC server"
    else afterRpc
  | Option.none => afterRpc

/-! ### `generate_yara_rule` (`api_yara.py`) -/

/-- One chunk handed to `gen.add_chunk` in the collection loop of
`generate_yara_rule`: the bytes, the offset relative to the start of the
range, and the data/code flag. -/
structure YaraChunk where
  bytes : List Nat
  offset : Nat
  is_data : Bool
  deriving Repr, DecidableEq

/-- The effective advance of one iteration of the chunk-collection loop
of `generate_yara_rule`: `ida_bytes.get_item_size(current)`, replaced by
`1` when the engine reports `0`, then clamped to `end - current` when
the item would run past `end`. -/
def stepSize (itemSize : Nat → Nat) (endA current : Nat) : Nat :=
  let item0 := itemSize current
  let item1 := if item0 = 0 then 1 else item0
  if current + item1 > endA then endA - current else item1

/-- The chunk-collection loop of `generate_yara_rule`, with the IDA
oracles passed in: `itemSize` is `ida_bytes.get_item_size`, `is_code` is
`ida_bytes.is_code(ida_bytes.get_flags(·))`, `getBytes` is
`ida_bytes.get_bytes` (`Option.none` for a `None` return; the Python
`if chunk_bytes:` truthiness test also rejects empty bytes). -/
def yaraLoop (itemSize : Nat → Nat) (is_code : Nat → Bool)
    (getBytes : Nat → Nat → Option (List Nat)) (include_data : Bool)
    (start endA : Nat) (current : Nat) (acc : List YaraChunk) : List YaraChunk :=
  if h : current < endA then
    let item_size := stepSize itemSize endA current
    let code := is_code current
    let should_add := code || include_data
    let is_data_chunk := !code && include_data
    let acc' :=
      if should_add then
        match getBytes current item_size with
        | some bs =>
          if bs.isEmpty then acc
          else acc ++ [⟨bs, current - start, is_data_chunk⟩]
        | Option.none => acc
      else acc
    yaraLoop itemSize is_code getBytes include_data start endA (current + item_size) acc'
  else acc
termination_by endA - current
decreasing_by
  have h1 : 1 ≤ stepSize itemSize endA current := by
    simp only [stepSize]
    split <;> split <;> omega
  omega

/-- Result of `generate_yara_rule`: an error dict `{"error": msg}` or the
success dict, whose rule we keep as the collected chunk list. -/
inductive YaraResult where
  | errorDict (msg : String)
  | success (rule : List YaraChunk) (ruleName : String)
  deriving Repr, DecidableEq

/-- `generate_yara_rule` from `api_yara.py`, with the external services
passed in: `parseAddress` is `utils.parse_address` (raising modelled as
`.error`), `capstoneCtx` is `_get_capstone_context` (its `ValueError`
likewise), and the IDA byte oracles as in `yaraLoop`. Checks run in
source order: the mkyara import guard, the mode whitelist, address
parsing, the `start >= end` guard, the capstone context, then the
collection loop. -/
def generate_yara_rule (hasMkyara : Bool)
    (parseAddress : String → Except String Nat)
    (capstoneCtx : Nat → Except String (Nat × Nat))
    (itemSize : Nat → Nat) (is_code : Nat → Bool)
    (getBytes : Nat → Nat → Option (List Nat))
    (name start_addr end_addr mode : String) (include_data : Bool) :
    YaraResult :=
  if !hasMkyara then
    .errorDict "Required libraries not found. Please install mkyara and capstone.\npip install mkyara capstone"
  else if mode ∉ (["loose", "normal", "strict"] : List String) then
    .errorDict ("Invalid mode " ++ mode ++ ". Must be one of: loose, normal, strict")
  else
    match parseAddress start_addr with
    | .error e => .errorDict ("Yara generation failed: " ++ e)
    | .ok start =>
      match parseAddress end_addr with
      | .error e => .errorDict ("Yara generation failed: " ++ e)
      | .ok endA =>
        if start ≥ endA then
          .errorDict "Start address must be less than end address."
        else
          match capstoneCtx start with
          | .error e => .errorDict e
          | .ok _ =>
            .success (yaraLoop itemSize is_code getBytes include_data start endA start []) name

/-! ### Session manager (`idb_session.py`, modelled from the spec) and the
session lifecycle tools of `api_pro.py` -/

/-- Modelled from the spec: the `Session` record of `idb_session.py`
(not under `src/`) — `session_id`, the canonicalized `input_path`, and
the `analysis_complete` flag (the `opened_at` timestamp is omitted: no
claim touches it). -/
structure Session where
  session_id : String
  input_path : String
  analysis_complete : Bool
  deriving Repr, DecidableEq

/-- Modelled from the spec: the `SessionManager` state of
`idb_session.py` (not under `src/`) — an insertion-ordered mapping from
`session_id` to `Session` plus the single nullable current pointer. -/
structure SessionManager where
  sessions : List (String × Session)
  current : Option String
  deriving Repr, DecidableEq

/-- Modelled from the spec: the typed failures of the session manager
(`NotFound`, `Conflict`, `EngineError`). -/
inductive MgrError where
  | notFound (msg : String)
  | conflict (msg : String)
  | engineError (msg : String)
  deriving Repr, DecidableEq

/-- The id of the first open session whose canonical path matches, if
any (the duplicate-path lookup of the idempotent open). -/
def findByPath (m : SessionManager) (canon : String) : Option String :=
  (m.sessions.find? (fun p => p.2.input_path == canon)).map (·.1)

/-- Modelled from the spec: `SessionManager.open_binary` — fails with
`NotFound` if the path does not exist; returns the existing id unchanged
if an open session has the same canonical path; fails with `Conflict`
on a colliding `requested_id`; fails with `EngineError` if the engine
cannot load the file; otherwise appends a fresh Session and sets it
current. The filesystem check, path canonicalization, generated id and
engine outcome enter as data (`pathExists`, `canon`, `freshId`,
`engineOk`). -/
def open_binary (m : SessionManager) (pathExists : Bool) (canon : String)
    (run_auto_analysis : Bool) (requested_id : Option String)
    (freshId : String) (engineOk : Bool) :
    Except MgrError (String × SessionManager) :=
  if !pathExists then
    .error (.notFound ("Input file not found: " ++ canon))
  else
    match findByPath m canon with
    | some sid => .ok (sid, m)
    | Option.none =>
      let sid := requested_id.getD freshId
      if requested_id.isSome && (m.sessions.lookup sid).isSome then
        .error (.conflict ("Session id already exists: " ++ sid))
      else if !engineOk then
        .error (.engineError ("Failed to load file: " ++ canon))
      else
        .ok (sid, ⟨m.sessions ++ [(sid, ⟨sid, canon, run_auto_analysis⟩)], some sid⟩)

/-- Modelled from the spec: `SessionManager.close_session` — returns
`false` without mutation on an unknown id; otherwise removes the session
and clears the current pointer if it pointed there. -/
def close_session (m : SessionManager) (sid : String) :
    Bool × SessionManager :=
  if (m.sessions.lookup sid).isSome then
    (true,
     ⟨m.sessions.filter (fun p => p.1 ≠ sid),
      if m.current = some sid then Option.none else m.current⟩)
  else
    (false, m)

/-- Modelled from the spec: `SessionManager.switch_session` — raises
`ValueError` (`NotFound`) on an unknown id; otherwise sets it current
and returns true (hence `.ok`). -/
def switch_session (m : SessionManager) (sid : String) :
    Except String SessionManager :=
  if (m.sessions.lookup sid).isSome then
    .ok { m with current := some sid }
  else
    .error ("Session not found: " ++ sid)

/-- `SessionManager.get_session`. -/
def get_session (m : SessionManager) (sid : String) : Option Session :=
  m.sessions.lookup sid

/-- `SessionManager.get_current_session`. -/
def get_current_session (m : SessionManager) : Option Session :=
  m.current.bind (fun sid => m.sessions.lookup sid)

/-- Modelled from the spec: `Session.to_dict`, the session descriptor
`{session_id, input_path, is_current, analysis_complete}`. -/
def session_to_dict (s : Session) (current : Option String) : PyVal :=
  .dict [("session_id", .str s.session_id),
         ("input_path", .str s.input_path),
         ("is_current", .bool (current == some s.session_id)),
         ("analysis_complete", .bool s.analysis_complete)]

/-- `Path(p).name`: the final path component. -/
def baseName (p : String) : String :=
  (p.splitOn "/").getLastD p

/-- The `open_database` tool of `api_pro.py`: the idalib guard, then
`manager.open_binary` with the typed failures rendered as the error
dicts of the `except` clauses (`FileNotFoundError` → the bare message,
`RuntimeError` → `Failed to open binary`, anything else → `Unexpected
error`), then `manager.get_session` and the success dict. Returns the
result dict together with the manager state after the call. -/
def open_database (hasIdalib : Bool) (m : SessionManager)
    (pathExists : Bool) (canon : String) (run_auto_analysis : Bool)
    (session_id : Option String) (freshId : String) (engineOk : Bool) :
    PyVal × SessionManager :=
  if !hasIdalib then
    (.dict [("error", .str "open_database is only supported in headless idalib mode")], m)
  else
    match open_binary m pathExists canon run_auto_analysis session_id freshId engineOk with
    | .error (.notFound e) => (.dict [("error", .str e)], m)
    | .error (.engineError e) =>
      (.dict [("error", .str ("Failed to open binary: " ++ e))], m)
    | .error (.conflict e) =>
      (.dict [("error", .str ("Unexpected error: " ++ e))], m)
    | .ok (sid, m') =>
      match get_session m' sid with
      | Option.none =>
        (.dict [("error", .str ("Failed to retrieve session after opening: " ++ sid))], m')
      | some s =>
        (.dict [("success", .bool true),
                ("session", session_to_dict s m'.current),
                ("message", .str ("Binary opened successfully: " ++ baseName s.input_path))],
         m')

/-- The `close_database` tool of `api_pro.py`: the idalib guard, then
`manager.close_session`, rendering `true` as the success dict and
`false` as the `{"success": False, "error": ...}` dict. -/
def close_database (hasIdalib : Bool) (m : SessionManager) (sid : String) :
    PyVal × SessionManager :=
  if !hasIdalib then
    (.dict [("error", .str "close_database is only supported in headless idalib mode")], m)
  else
    match close_session m sid with
    | (true, m') =>
      (.dict [("success", .bool true),
              ("message", .str ("Session closed: " ++ sid))], m')
    | (false, m') =>
      (.dict [("success", .bool false),
              ("error", .str ("Session not found: " ++ sid))], m')

/-- The `switch_database` tool of `api_pro.py`: the idalib guard, then
`manager.switch_session`; its `ValueError` is caught and rendered as
`{"error": str(e)}`; on success `manager.get_current_session` feeds the
success dict. -/
def switch_database (hasIdalib : Bool) (m : SessionManager) (sid : String) :
    PyVal × SessionManager :=
  if !hasIdalib then
    (.dict [("error", .str "switch_database is only supported in headless idalib mode")], m)
  else
    match switch_session m sid with
    | .error e => (.dict [("error", .str e)], m)
    | .ok m' =>
      match get_current_session m' with
      | Option.none =>
        (.dict [("error", .str "Failed to retrieve current session after switching")], m')
      | some s =>
        (.dict [("success", .bool true),
                ("session", session_to_dict s m'.current),
                ("message", .str ("Switched to session: " ++ sid ++ " (" ++ baseName s.input_path ++ ")"))],
         m')

/-! ### Theorems -/

/-- The HTTP forwarding block never produces a local-engine response. -/
theorem handleRemote_ne_viaLocalEngine (env : Env) (req : JsonRpcRequest)
    (bk : Backends) (r : PyVal) :
    handleRemote env req bk ≠ .viaLocalEngine r := by
  unfold handleRemote
  cases bk.remoteCall with
  | ok v => simp
  | error e => cases req.id <;> simp

/-- C1: with a local engine available (idalib present, local MCP server
loaded), forceRemote unset, a method that is neither `initialize` nor
notifications-prefixed, and the session query and local dispatch
succeeding, `dispatch_proxy` dispatches locally via the Registry if and
only if forceHeadless is set, or the method is one of the four discovery
methods, or it is `tools/call` with `params.name = "open_database"`, or
a session is currently current — so the session-opening tool call
dispatches locally regardless of current-session state. -/
theorem c1_router_local_iff (env : Env) (req : JsonRpcRequest) (bk : Backends)
    (hasSession : Bool) (r : PyVal)
    (hinit : req.method ≠ "initialize")
    (hnotif : req.method.startsWith "notifications/" = false)
    (hlib : env.hasIdalib = true) (hsrv : env.localServer = true)
    (hrpc : env.forceRpc = false)
    (hq : bk.sessionQuery = .ok hasSession)
    (hd : bk.localDispatch = .ok r) :
    dispatch_proxy env req bk = .ok (.viaLocalEngine r) ↔
      (env.forceHeadless = true ∨ is_discovery req.method = true ∨
       is_open_command req.method req.params = true ∨ hasSession = true) := by
  have hm : (req.method == "initialize") = false := beq_eq_false_iff_ne.mpr hinit
  by_cases hc : (env.forceHeadless || is_discovery req.method ||
      is_open_command req.method req.params || hasSession) = true
  · constructor
    · intro _
      rcases Bool.or_eq_true _ _ |>.mp hc with h | h
      · rcases Bool.or_eq_true _ _ |>.mp h with h | h
        · rcases Bool.or_eq_true _ _ |>.mp h with h | h
          · exact Or.inl h
          · exact Or.inr (Or.inl h)
        · exact Or.inr (Or.inr (Or.inl h))
      · exact Or.inr (Or.inr (Or.inr h))
    · intro _
      simp [dispatch_proxy, localPhase, hm, hnotif, hrpc, hlib, hsrv, hq, hd, hc]
  · constructor
    · intro hres
      exfalso
      rw [dispatch_proxy] at hres
      simp only [hm, Bool.false_eq_true, if_false, hnotif, localPhase, hrpc, hlib, hsrv,
        Bool.not_false, Bool.and_self, Bool.true_and, if_true, hq, hc] at hres
      exact handleRemote_ne_viaLocalEngine env req bk r (Except.ok.inj hres)
    · intro hdisj
      exfalso
      apply hc
      rcases hdisj with h | h | h | h
      · simp [h]
      · simp [h]
      · simp [h]
      · simp [h]

/-- C2: for a request that reaches the forwarding block (neither
handshake nor notification-prefixed, local phase fell through) whose
remote call fails, `dispatch_proxy` returns the `-32000` error envelope
with the human-readable message, the exception text as `data` and the
request id when an id is present, and no response at all when the id is
absent. -/
theorem c2_forward_failure (env : Env) (req : JsonRpcRequest) (bk : Backends)
    (e : String)
    (hinit : req.method ≠ "initialize")
    (hnotif : req.method.startsWith "notifications/" = false)
    (hfall : localPhase env req bk = .fallThrough)
    (hrem : bk.remoteCall = .error e) :
    (∀ i, req.id = some i →
      dispatch_proxy env req bk =
        .ok (.errorResponse (-32000) (connectionErrorMsg env bk.fullInfo) e i)) ∧
    (req.id = Option.none → dispatch_proxy env req bk = .ok .noResponse) := by
  have hm : (req.method == "initialize") = false := beq_eq_false_iff_ne.mpr hinit
  constructor
  · intro i hi
    simp [dispatch_proxy, hm, hnotif, hfall, handleRemote, hrem, hi]
  · intro hi
    simp [dispatch_proxy, hm, hnotif, hfall, handleRemote, hrem, hi]

/-- C3: a request whose method is `initialize` or starts with
`notifications/` is always dispatched via the original local Registry,
for every flag configuration, backend behaviour and session state, and
is never forwarded. -/
theorem c3_handshake_always_local (env : Env) (req : JsonRpcRequest)
    (bk : Backends)
    (h : req.method = "initialize" ∨ req.method.startsWith "notifications/" = true) :
    dispatch_proxy env req bk = .ok (.viaOriginal bk.originalDispatch) := by
  rcases h with h | h
  · simp [dispatch_proxy, h]
  · by_cases hm : (req.method == "initialize") = true
    · simp [dispatch_proxy, hm]
    · simp [dispatch_proxy, hm, h]

/-- C4: when the local dispatch path raises (the local-IDA section was
entered, the local condition held, and the registry dispatch failed),
`dispatch_proxy` re-raises the exception if forceHeadless is set, and
otherwise swallows it and forwards the request to the remote peer. -/
theorem c4_local_failure_fallback (env : Env) (req : JsonRpcRequest)
    (bk : Backends) (e : String) (hasSession : Bool)
    (hinit : req.method ≠ "initialize")
    (hnotif : req.method.startsWith "notifications/" = false)
    (hlib : env.hasIdalib = true) (hsrv : env.localServer = true)
    (hrpc : env.forceRpc = false)
    (hq : bk.sessionQuery = .ok hasSession)
    (hcond : env.forceHeadless = true ∨ is_discovery req.method = true ∨
             is_open_command req.method req.params = true ∨ hasSession = true)
    (hd : bk.localDispatch = .error e) :
    dispatch_proxy env req bk =
      if env.forceHeadless then .error e else .ok (handleRemote env req bk) := by
  have hm : (req.method == "initialize") = false := beq_eq_false_iff_ne.mpr hinit
  cases hfh : env.forceHeadless with
  | true =>
    simp [dispatch_proxy, localPhase, hm, hnotif, hrpc, hlib, hsrv, hq, hd, hfh]
  | false =>
    have hcond2 : (env.forceHeadless || is_discovery req.method ||
        is_open_command req.method req.params || hasSession) = true := by
      rcases hcond with h | h | h | h
      · rw [hfh] at h; cases h
      · simp [h]
      · simp [h]
      · simp [h]
    simp [dispatch_proxy, localPhase, hm, hnotif, hrpc, hlib, hsrv, hq, hd, hfh, hcond2]

/-- C8: setting both mode flags (`--headless` and `--rpc-only`) is fatal
at startup: provided the `--ida-rpc` argument (checked first) is absent
or well-formed, `main` exits with status 1 and the contradiction message
before any request is served. -/
theorem c8_contradictory_flags_fatal (hasIdalib : Bool) (a : Args)
    (hrpcArg : ∀ u, a.idaRpc = some u →
      u.hostname ≠ Option.none ∧ u.port ≠ Option.none)
    (hh : a.headless = true) (hr : a.rpcOnly = true) :
    mainStartup hasIdalib a =
      .exitError 1 "Error: Cannot specify both --headless and --rpc-only" := by
  unfold mainStartup
  cases hu : a.idaRpc with
  | none => simp [hh, hr]
  | some u =>
    obtain ⟨h1, h2⟩ := hrpcArg u hu
    simp [hh, hr, h1, h2]

/-- C9: the chunk-collection loop of `generate_yara_rule` terminates:
whenever `current < end`, the per-iteration advance `stepSize` (item
size, forced to at least 1 on an engine-reported 0, clamped to
`end - current` for a partial final item) strictly increases the loop
counter while never overshooting `end`. -/
theorem c9_yara_loop_advances (itemSize : Nat → Nat) (endA current : Nat)
    (h : current < endA) :
    current < current + stepSize itemSize endA current ∧
    current + stepSize itemSize endA current ≤ endA := by
  have key : 1 ≤ stepSize itemSize endA current ∧
      current + stepSize itemSize endA current ≤ endA := by
    simp only [stepSize]
    split_ifs <;> omega
  exact ⟨by omega, key.2⟩

/-- C10: `generate_yara_rule` validates its inputs up front: any mode
outside the loose/normal/strict whitelist yields the error dict naming
the invalid mode, and (with both addresses parsing) any pair with
`start >= end` yields an error dict; in both cases no rule is
generated. -/
theorem c10_yara_input_validation
    (parseAddress : String → Except String Nat)
    (capstoneCtx : Nat → Except String (Nat × Nat))
    (itemSize : Nat → Nat) (is_code : Nat → Bool)
    (getBytes : Nat → Nat → Option (List Nat))
    (name start_addr end_addr mode : String) (include_data : Bool)
    (startV endV : Nat)
    (hps : parseAddress start_addr = .ok startV)
    (hpe : parseAddress end_addr = .ok endV) :
    (mode ∉ (["loose", "normal", "strict"] : List String) →
      generate_yara_rule true parseAddress capstoneCtx itemSize is_code getBytes
          name start_addr end_addr mode include_data =
        .errorDict ("Invalid mode " ++ mode ++ ". Must be one of: loose, normal, strict")) ∧
    (startV ≥ endV →
      ∃ msg, generate_yara_rule true parseAddress capstoneCtx itemSize is_code getBytes
          name start_addr end_addr mode include_data = .errorDict msg) := by
  constructor
  · intro hmode
    simp [generate_yara_rule, hmode]
  · intro hge
    by_cases hin : mode ∈ (["loose", "normal", "strict"] : List String)
    · exact ⟨"Start address must be less than end address.",
        by simp [generate_yara_rule, hin, hps, hpe, hge]⟩
    · exact ⟨"Invalid mode " ++ mode ++ ". Must be one of: loose, normal, strict",
        by simp [generate_yara_rule, hin]⟩

/-- C5: opening a path that is already open in some session is
idempotent — the `open_database` tool returns the success dict carrying
the existing session id, and the manager state (hence the session
count) is unchanged. The hypotheses record the manager invariants: the
path lookup finds `sid`, the mapping maps `sid` to `s`, and the mapping
key equals the session's own id. -/
theorem c5_open_database_idempotent (m : SessionManager) (canon sid : String)
    (s : Session) (run_auto_analysis : Bool) (requested_id : Option String)
    (freshId : String) (engineOk : Bool)
    (hfind : findByPath m canon = some sid)
    (hlk : m.sessions.lookup sid = some s)
    (hsid : s.session_id = sid) :
    open_database true m true canon run_auto_analysis requested_id freshId engineOk =
      (.dict [("success", .bool true),
              ("session", .dict [("session_id", .str sid),
                                 ("input_path", .str s.input_path),
                                 ("is_current", .bool (m.current == some sid)),
                                 ("analysis_complete", .bool s.analysis_complete)]),
              ("message", .str ("Binary opened successfully: " ++ baseName s.input_path))],
       m) := by
  simp [open_database, open_binary, hfind, get_session, hlk, session_to_dict, hsid]

/-- C6: switching to a session id absent from the mapping fails with the
NotFound error dict (the manager raises `ValueError`, rendered by the
tool as `{"error": ...}`) and leaves the manager — in particular the
current pointer — unchanged. -/
theorem c6_switch_unknown_notfound (m : SessionManager) (sid : String)
    (h : m.sessions.lookup sid = Option.none) :
    switch_database true m sid =
      (.dict [("error", .str ("Session not found: " ++ sid))], m) ∧
    (switch_database true m sid).2.current = m.current := by
  have hsw : switch_session m sid = .error ("Session not found: " ++ sid) := by
    simp [switch_session, h]
  constructor
  · simp [switch_database, hsw]
  · simp [switch_database, hsw]

/-- C7: closing a session id absent from the mapping returns the
`{"success": False, "error": ...}` dict without raising, and neither
the mapping nor the current pointer changes. -/
theorem c7_close_unknown_false (m : SessionManager) (sid : String)
    (h : m.sessions.lookup sid = Option.none) :
    close_database true m sid =
      (.dict [("success", .bool false),
              ("error", .str ("Session not found: " ++ sid))], m) ∧
    (close_database true m sid).2.current = m.current ∧
    (close_database true m sid).2.sessions = m.sessions := by
  have hcl : close_session m sid = (false, m) := by
    simp [close_session, h]
  refine ⟨?_, ?_, ?_⟩ <;> simp [close_database, hcl]

/-! ### Witnesses: the claim theorems evaluated at concrete inputs -/

/-- C1 witness: a `tools/call` of `open_database` with no current session
still dispatches via the local engine. -/
theorem c1_router_local_iff_witness :
    dispatch_proxy ⟨false, false, true, true, false⟩
        ⟨"tools/call", some (.dict [("name", "open_database")]), some (.num 1)⟩
        ⟨.ok false, .ok (.str "handled"), .str "orig", .ok (.str "remote"), ""⟩ =
      .ok (.viaLocalEngine (.str "handled")) :=
  (c1_router_local_iff ⟨false, false, true, true, false⟩
      ⟨"tools/call", some (.dict [("name", "open_database")]), some (.num 1)⟩
      ⟨.ok false, .ok (.str "handled"), .str "orig", .ok (.str "remote"), ""⟩
      false (.str "handled")
      (by decide) (by decide) rfl rfl rfl rfl rfl).mpr
    (Or.inr (Or.inr (Or.inl (by decide))))

/-- C2 witness: with no local engine and the remote peer unreachable, a
request with id 7 yields the `-32000` error envelope with id 7. -/
theorem c2_forward_failure_witness :
    dispatch_proxy ⟨true, false, true, true, false⟩
        ⟨"tools/call", Option.none, some (.num 7)⟩
        ⟨.ok false, .ok (.str "x"), .str "orig", .error "connection refused", "trace"⟩ =
      .ok (.errorResponse (-32000)
        (connectionErrorMsg ⟨true, false, true, true, false⟩ "trace")
        "connection refused" (.num 7)) :=
  (c2_forward_failure ⟨true, false, true, true, false⟩
      ⟨"tools/call", Option.none, some (.num 7)⟩
      ⟨.ok false, .ok (.str "x"), .str "orig", .error "connection refused", "trace"⟩
      "connection refused" (by decide) (by decide) rfl rfl).1 (.num 7) rfl

/-- C3 witness: `initialize` dispatches via the original Registry even
with forceRemote set and no session. -/
theorem c3_handshake_always_local_witness :
    dispatch_proxy ⟨true, false, false, false, false⟩
        ⟨"initialize", Option.none, Option.none⟩
        ⟨.ok false, .ok (.str "x"), .str "orig", .error "down", ""⟩ =
      .ok (.viaOriginal (.str "orig")) :=
  c3_handshake_always_local ⟨true, false, false, false, false⟩
    ⟨"initialize", Option.none, Option.none⟩
    ⟨.ok false, .ok (.str "x"), .str "orig", .error "down", ""⟩
    (Or.inl rfl)

/-- C4 witness: with forceHeadless set, a failing local dispatch
propagates as an exception. -/
theorem c4_local_failure_fallback_witness :
    dispatch_proxy ⟨false, true, true, true, false⟩
        ⟨"tools/list", Option.none, some (.num 2)⟩
        ⟨.ok false, .error "boom", .str "orig", .ok (.str "r"), ""⟩ =
      .error "boom" :=
  c4_local_failure_fallback ⟨false, true, true, true, false⟩
    ⟨"tools/list", Option.none, some (.num 2)⟩
    ⟨.ok false, .error "boom", .str "orig", .ok (.str "r"), ""⟩
    "boom" false (by decide) (by decide) rfl rfl rfl rfl
    (Or.inl rfl) rfl

/-- C5 witness: reopening `/bin/a`, already open as session `s1`,
returns `s1` and leaves the manager unchanged. -/
theorem c5_open_database_idempotent_witness :
    open_database true ⟨[("s1", ⟨"s1", "/bin/a", true⟩)], some "s1"⟩ true "/bin/a"
        true Option.none "fresh" true =
      (.dict [("success", .bool true),
              ("session", .dict [("session_id", .str "s1"),
                                 ("input_path", .str "/bin/a"),
                                 ("is_current", .bool (some "s1" == some "s1")),
                                 ("analysis_complete", .bool true)]),
              ("message", .str ("Binary opened successfully: " ++ baseName "/bin/a"))],
       ⟨[("s1", ⟨"s1", "/bin/a", true⟩)], some "s1"⟩) :=
  c5_open_database_idempotent ⟨[("s1", ⟨"s1", "/bin/a", true⟩)], some "s1"⟩
    "/bin/a" "s1" ⟨"s1", "/bin/a", true⟩ true Option.none "fresh" true rfl rfl rfl

/-- C6 witness: switching to the unknown id `zz` yields the NotFound
error dict and leaves the current pointer unchanged. -/
theorem c6_switch_unknown_notfound_witness :
    switch_database true ⟨[("s1", ⟨"s1", "/bin/a", true⟩)], some "s1"⟩ "zz" =
      (.dict [("error", .str ("Session not found: " ++ "zz"))],
       ⟨[("s1", ⟨"s1", "/bin/a", true⟩)], some "s1"⟩) ∧
    (switch_database true ⟨[("s1", ⟨"s1", "/bin/a", true⟩)], some "s1"⟩ "zz").2.current =
      (⟨[("s1", ⟨"s1", "/bin/a", true⟩)], some "s1"⟩ : SessionManager).current :=
  c6_switch_unknown_notfound ⟨[("s1", ⟨"s1", "/bin/a", true⟩)], some "s1"⟩ "zz" rfl

/-- C7 witness: closing the unknown id `zz` returns the
`{"success": False}` dict and changes nothing. -/
theorem c7_close_unknown_false_witness :
    close_database true ⟨[("s1", ⟨"s1", "/bin/a", true⟩)], some "s1"⟩ "zz" =
      (.dict [("success", .bool false),
              ("error", .str ("Session not found: " ++ "zz"))],
       ⟨[("s1", ⟨"s1", "/bin/a", true⟩)], some "s1"⟩) ∧
    (close_database true ⟨[("s1", ⟨"s1", "/bin/a", true⟩)], some "s1"⟩ "zz").2.current =
      (⟨[("s1", ⟨"s1", "/bin/a", true⟩)], some "s1"⟩ : SessionManager).current ∧
    (close_database true ⟨[("s1", ⟨"s1", "/bin/a", true⟩)], some "s1"⟩ "zz").2.sessions =
      (⟨[("s1", ⟨"s1", "/bin/a", true⟩)], some "s1"⟩ : SessionManager).sessions :=
  c7_close_unknown_false ⟨[("s1", ⟨"s1", "/bin/a", true⟩)], some "s1"⟩ "zz" rfl

/-- C8 witness: `--headless --rpc-only` together exit with status 1 at
startup. -/
theorem c8_contradictory_flags_fatal_witness :
    mainStartup true ⟨false, false, true, true, false, Option.none⟩ =
      .exitError 1 "Error: Cannot specify both --headless and --rpc-only" :=
  c8_contradictory_flags_fatal true ⟨false, false, true, true, false, Option.none⟩
    (fun _ h => nomatch h) rfl rfl

/-- C9 witness: at `current = 3`, `end = 5`, with the engine reporting
item size 0, the loop still advances by at least 1 and stays within the
range. -/
theorem c9_yara_loop_advances_witness :
    3 < 3 + stepSize (fun _ => 0) 5 3 ∧ 3 + stepSize (fun _ => 0) 5 3 ≤ 5 :=
  c9_yara_loop_advances (fun _ => 0) 5 3 (by decide)

/-- C10 witness: mode `bogus` is rejected with an error dict naming it. -/
theorem c10_yara_input_validation_witness :
    generate_yara_rule true (fun a => if a = "32" then .ok 32 else .ok 16)
        (fun _ => .ok (0, 0)) (fun _ => 1) (fun _ => true) (fun _ _ => Option.none)
        "r" "32" "16" "bogus" false =
      .errorDict ("Invalid mode " ++ "bogus" ++ ". Must be one of: loose, normal, strict") :=
  (c10_yara_input_validation (fun a => if a = "32" then .ok 32 else .ok 16)
      (fun _ => .ok (0, 0)) (fun _ => 1) (fun _ => true) (fun _ _ => Option.none)
      "r" "32" "16" "bogus" false 32 16 rfl rfl).1 (by decide)

end IdaProMcp
